import Mathlib

/-!
Verification development for the observation-assistant repository: the tiered
disk store (app/storage.py), the source-adapter processors (app/processors/),
the observation-review pass and periodic task loop (app/background.py,
assistant/background/task_manager.py), and the entity data model
(app/types.py), shallowly embedded as executable Lean definitions.
-/

set_option maxRecDepth 4000

deriving instance DecidableEq for Except

namespace Assistant

/-- A wall-clock instant as produced by Python's datetime.now: whole seconds
since the epoch (timezone-adjusted) plus the microsecond within the second. -/
structure DateTime where
  sec : Nat
  micro : Nat
deriving DecidableEq, Repr

/-- Comparison of two instants (datetime ordering), as a Bool for
executability: lexicographic on (sec, micro). -/
def DateTime.leb (a b : DateTime) : Bool :=
  a.sec < b.sec || (a.sec == b.sec && a.micro ≤ b.micro)

/-- Render of strftime with a day-granularity format (the %Y-%m-%d day key of
app/types.py): the format is injective on the day number, so the rendered
string is modelled by the day count. -/
def dayId (t : DateTime) : String :=
  toString (t.sec / 86400)

/-- Render of datetime.isoformat(): full precision, injective on the instant. -/
def isoFormat (t : DateTime) : String :=
  toString t.sec ++ "." ++ toString t.micro

/-- File names as written by the storage layer. A tier record is written as
prefix_stamp.json where stamp is strftime of %Y%m%d_%H%M%S — a render that is
injective on the wall-clock second and drops sub-second precision, so the name
is fully determined by the prefix together with the whole-second value. An
entity file is id.json, determined by the entity id. -/
inductive FileName where
  | timestamped (pre : String) (sec : Nat)
  | entityFile (id : String)
deriving DecidableEq, Repr

/-- A directory: a finite map from file name to file content, represented as an
association list (a real directory holds at most one entry per name). -/
abbrev Dir (α : Type) : Type := List (FileName × α)

/-- Look up the content stored under a name (Path.exists / read). -/
def lookupFile {α : Type} : Dir α → FileName → Option α
  | [], _ => none
  | (n, c) :: rest, name => if n = name then some c else lookupFile rest name

/-- Write content under a name: Path.write_text truncates an existing file and
creates a missing one, so an existing entry is replaced in place and a new
entry is appended. -/
def setFile {α : Type} : Dir α → FileName → α → Dir α
  | [], name, content => [(name, content)]
  | (n, c) :: rest, name, content =>
      if n = name then (name, content) :: rest
      else (n, c) :: setFile rest name content

/-- Remove every entry under a name (Path.unlink / the source of a rename; a
real directory holds at most one). -/
def eraseFile {α : Type} (dir : Dir α) (name : FileName) : Dir α :=
  dir.filter (fun p => p.1 ≠ name)

/-- On-disk bytes of a serialized record: either bytes that parse back to the
record that was serialized (pydantic model_dump_json / model_validate_json
round-trip), or corrupt bytes that fail validation. -/
inductive Stored (α : Type) where
  | ok (a : α)
  | corrupt (text : String)
deriving DecidableEq, Repr

/-- Result of model_validate_json on stored bytes. -/
def Stored.parse {α : Type} : Stored α → Option α
  | .ok a => some a
  | .corrupt _ => none

/-- Glob pre_*.json over the structured names: a timestamped name matches
exactly when its prefix is pre (entity-style names never carry the underscore
separator of a tier prefix). -/
def globMatch (pre : String) : FileName → Bool
  | .timestamped p _ => p == pre
  | .entityFile _ => false

/-! ## Data model (app/types.py) -/

/-- An event record inside ObservationSummary.events: an open string-keyed
dict (subject/sender/snippet, or channel/user/text, or title/repository/...),
with the content hash, when recorded, stored under the key hash. -/
abbrev EventDict : Type := List (String × String)

/-- Python dict.get(key): the first value stored under the key, if any. -/
def dictGet : EventDict → String → Option String
  | [], _ => none
  | (k, v) :: rest, key => if k = key then some v else dictGet rest key

/-- The content hash recorded in an event dict, per the truthiness test
if event.get(hash-key) of the processors: an absent key and an empty string
both count as no hash. -/
def eventHash? (e : EventDict) : Option String :=
  match dictGet e "hash" with
  | some h => if h = "" then none else some h
  | none => none

/-- Entity of app/types.py: a persistent cross-batch subject. Importance is a
score in the unit interval, modelled as a rational. -/
structure Entity where
  id : String
  type : String
  source : String
  name : String
  description : String
  first_seen : DateTime
  last_seen : DateTime
  last_updated : DateTime
  importance : ℚ
  recent_mentions : List String
deriving DecidableEq, Repr

/-- Pydantic validation of Entity as declared in app/types.py: the two Literal
fields, importance in the unit interval (ge=0, le=1), and recent_mentions
bounded by max_length=10. Validation either returns the value unchanged or
raises a ValidationError; it never rewrites a field. -/
def Entity.validate (e : Entity) : Except String Entity :=
  if ¬ (["user", "repository", "channel", "topic"].contains e.type) then
    .error "type: input should be a valid literal"
  else if ¬ (["github", "slack", "email"].contains e.source) then
    .error "source: input should be a valid literal"
  else if e.importance < 0 then
    .error "importance: input should be greater than or equal to 0"
  else if 1 < e.importance then
    .error "importance: input should be less than or equal to 1"
  else if 10 < e.recent_mentions.length then
    .error "recent_mentions: list should have at most 10 items"
  else
    .ok e

/-- ObservationSummary of app/types.py: one raw or processed batch. -/
structure ObservationSummary where
  timestamp : DateTime
  summary : String
  events : List EventDict
  source_types : List String
  day_id : String
  entity_mentions : List String
  referenced_entities : List Entity
deriving DecidableEq, Repr

/-- CompactedSummary of app/types.py: a historical pin. -/
structure CompactedSummary where
  summary : String
  start_time : DateTime
  end_time : DateTime
  key_points : List String
  importance_score : ℚ
  source_types : List String
  day_id : String
  empty : Bool
deriving DecidableEq, Repr

/-! ## Tiered disk store (app/storage.py) -/

/-- The state of a DiskStorage base directory: the four sibling tier
directories (raw, processed, compact, entities). -/
structure DiskStorage where
  rawDir : Dir (Stored ObservationSummary)
  processedDir : Dir (Stored ObservationSummary)
  compactDir : Dir (Stored CompactedSummary)
  entitiesDir : Dir (Stored Entity)
deriving DecidableEq

/-- A DiskStorage over freshly created (empty) tier directories. -/
def DiskStorage.empty : DiskStorage :=
  ⟨[], [], [], []⟩

/-- The helper of app/storage.py that derives a record path: the name is the
prefix joined to strftime of %Y%m%d_%H%M%S of datetime.now — second
granularity, no disambiguating suffix of any kind. -/
def getTimestampedPath (pre : String) (now : DateTime) : FileName :=
  .timestamped pre now.sec

/-- DiskStorage.store_raw: serialize and write under raw/raw_stamp.json.
The instant now is the datetime.now() observed inside the call. -/
def DiskStorage.store_raw (fs : DiskStorage) (data : ObservationSummary)
    (now : DateTime) : DiskStorage :=
  { fs with rawDir := setFile fs.rawDir (getTimestampedPath "raw" now) (.ok data) }

/-- DiskStorage.store_processed: write under processed/summary_stamp.json. -/
def DiskStorage.store_processed (fs : DiskStorage) (data : ObservationSummary)
    (now : DateTime) : DiskStorage :=
  { fs with processedDir := setFile fs.processedDir (getTimestampedPath "summary" now) (.ok data) }

/-- DiskStorage.store_compact: write under compact/compact_stamp.json. -/
def DiskStorage.store_compact (fs : DiskStorage) (data : CompactedSummary)
    (now : DateTime) : DiskStorage :=
  { fs with compactDir := setFile fs.compactDir (getTimestampedPath "compact" now) (.ok data) }

/-- DiskStorage.store_entity: write under entities/id.json. -/
def DiskStorage.store_entity (fs : DiskStorage) (entity : Entity) : DiskStorage :=
  { fs with entitiesDir := setFile fs.entitiesDir (.entityFile entity.id) (.ok entity) }

/-- DiskStorage.get_unprocessed: glob raw_*.json in the raw tier. -/
def DiskStorage.get_unprocessed (fs : DiskStorage) : List FileName :=
  (fs.rawDir.filter (fun p => globMatch "raw" p.1)).map Prod.fst

/-- DiskStorage.get_processed: glob summary_*.json in the processed tier. -/
def DiskStorage.get_processed (fs : DiskStorage) : List FileName :=
  (fs.processedDir.filter (fun p => globMatch "summary" p.1)).map Prod.fst

/-- DiskStorage.get_compact: glob compact_*.json in the compact tier. -/
def DiskStorage.get_compact (fs : DiskStorage) : List FileName :=
  (fs.compactDir.filter (fun p => globMatch "compact" p.1)).map Prod.fst

/-- DiskStorage.get_entity: read entities/id.json; absent file gives None, and
a validation failure is logged and also gives None. -/
def DiskStorage.get_entity (fs : DiskStorage) (entity_id : String) : Option Entity :=
  match lookupFile fs.entitiesDir (.entityFile entity_id) with
  | none => none
  | some content => content.parse

/-- DiskStorage.get_entities: glob *.json in the entities tier, parse each,
skip (with a logged error) any record that fails validation. -/
def DiskStorage.get_entities (fs : DiskStorage) : List Entity :=
  fs.entitiesDir.filterMap (fun p => p.2.parse)

/-- DiskStorage.delete_entity: unlink entities/id.json when present and report
True; report False when the file does not exist. -/
def DiskStorage.delete_entity (fs : DiskStorage) (entity_id : String) :
    DiskStorage × Bool :=
  if (lookupFile fs.entitiesDir (.entityFile entity_id)).isSome then
    ({ fs with entitiesDir := eraseFile fs.entitiesDir (.entityFile entity_id) }, true)
  else
    (fs, false)

/-! ## Source adapter processors (app/processors/slack.py, app/processors/email.py) -/

/-- An event yielded by the Slack observer: content hash plus the content
fields that the processor copies into the event dict. -/
structure SlackEvent where
  hash : String
  source_type : String
  timestamp : DateTime
  channel : String
  user : String
  text : String
  thread_ts : String
  permalink : String
deriving DecidableEq, Repr

/-- The event dict built by process_slack_observations for one Slack event:
type, timestamp, hash, and the unpacked content fields. -/
def SlackEvent.toDict (e : SlackEvent) : EventDict :=
  [("type", e.source_type), ("timestamp", isoFormat e.timestamp), ("hash", e.hash),
   ("channel", e.channel), ("user", e.user), ("text", e.text),
   ("thread_ts", e.thread_ts), ("permalink", e.permalink)]

/-- An event yielded by the Gmail observer (assistant/observers/gmail.py). Its
content hash, under the convention of the hash-based adapters, is the
upstream message id. -/
structure EmailEvent where
  id : String
  subject : String
  sender : String
  snippet : String
  thread_id : String
  labels : List String
deriving DecidableEq, Repr

/-- The event dict built by process_gmail_observations of
app/processors/email.py for one Gmail event: type, timestamp, subject, sender
and snippet — the processor records no hash key at all. -/
def EmailEvent.toDict (e : EmailEvent) (now : DateTime) : EventDict :=
  [("type", "email"), ("timestamp", isoFormat now),
   ("subject", e.subject), ("sender", e.sender), ("snippet", e.snippet)]

/-- The dedup set recomputed at the start of process_slack_observations: scan
every enumerated processed-tier and raw-tier record, skip records that fail to
parse, and collect the hash of every event dict that carries one. -/
def DiskStorage.processedHashes (fs : DiskStorage) : List String :=
  ((fs.processedDir.filter (fun p => globMatch "summary" p.1)) ++
   (fs.rawDir.filter (fun p => globMatch "raw" p.1))).foldl
    (fun acc p =>
      match p.2.parse with
      | some s => acc ++ s.events.filterMap eventHash?
      | none => acc)
    []

/-- Result of one processor invocation: the disk state afterwards and the
returned summary (None when nothing was processed). -/
structure ProcessResult where
  fs : DiskStorage
  result : Option ObservationSummary
deriving DecidableEq

/-- process_slack_observations of app/processors/slack.py. Inputs that the
source reads from the environment are passed explicitly: the configured bot
token, the events yielded by the Slack observer, the narrative string returned
by the summarization oracle, and the datetime.now() instants observed while
building the raw batch and the processed batch. The dedup set is recomputed
from the processed and raw tiers; an observed event is retained only if its
hash is not in that set; if any events remain, the raw batch is stored first
and the processed batch after the oracle call. Nothing is archived. -/
def process_slack_observations (fs : DiskStorage) (botToken : Option String)
    (slackEvents : List SlackEvent) (oracleSummary : String)
    (nowRaw nowProc : DateTime) : ProcessResult :=
  match botToken with
  | none => ⟨fs, none⟩
  | some _ =>
    let processed_hashes := fs.processedHashes
    if slackEvents.isEmpty then ⟨fs, none⟩
    else
      let new_events := slackEvents.filter (fun e => !(processed_hashes.contains e.hash))
      let events := new_events.map SlackEvent.toDict
      if new_events.isEmpty then ⟨fs, none⟩
      else
        let raw_summary : ObservationSummary :=
          { timestamp := nowRaw, summary := "", events := events,
            source_types := ["slack"], day_id := dayId nowRaw,
            entity_mentions := [], referenced_entities := [] }
        let fs1 := fs.store_raw raw_summary nowRaw
        let summary : ObservationSummary :=
          { timestamp := nowProc, summary := oracleSummary, events := events,
            source_types := ["slack"], day_id := dayId nowProc,
            entity_mentions := [], referenced_entities := [] }
        let fs2 := fs1.store_processed summary nowProc
        ⟨fs2, some summary⟩

/-- process_gmail_observations of app/processors/email.py. The observer's
events are all turned into event dicts and stored — the function consults no
dedup set and records no hash, so previously seen events are re-included. -/
def process_gmail_observations (fs : DiskStorage)
    (emailEvents : List EmailEvent) (oracleSummary : String)
    (nowRaw nowProc : DateTime) : ProcessResult :=
  if emailEvents.isEmpty then ⟨fs, none⟩
  else
    let events := emailEvents.map (fun e => e.toDict nowRaw)
    let raw_summary : ObservationSummary :=
      { timestamp := nowRaw, summary := "", events := events,
        source_types := ["email"], day_id := dayId nowRaw,
        entity_mentions := [], referenced_entities := [] }
    let fs1 := fs.store_raw raw_summary nowRaw
    let summary : ObservationSummary :=
      { timestamp := nowProc, summary := oracleSummary, events := events,
        source_types := ["email"], day_id := dayId nowProc,
        entity_mentions := [], referenced_entities := [] }
    let fs2 := fs1.store_processed summary nowProc
    ⟨fs2, some summary⟩

/-! ## Summary loading for the API layer (app/api/dependencies.py) -/

/-- load_summaries of app/api/dependencies.py, restricted to its disk-reading
behaviour: enumerate the processed tier, parse each record, skip (with a
logged error) any record that fails validation, and keep summaries at or after
the cutoff; enumerate the compact tier the same way with no cutoff. Timezone
normalization of naive stamps is identity here because every modelled instant
is aware. -/
def load_summaries (fs : DiskStorage) (cutoff : DateTime) :
    List ObservationSummary × List CompactedSummary :=
  let recent_summaries :=
    (fs.processedDir.filter (fun p => globMatch "summary" p.1)).filterMap
      (fun p =>
        match p.2.parse with
        | some s => if cutoff.leb s.timestamp then some s else none
        | none => none)
  let compact_summaries :=
    (fs.compactDir.filter (fun p => globMatch "compact" p.1)).filterMap
      (fun p => p.2.parse)
  (recent_summaries, compact_summaries)

/-! ## Observation review pass (app/background.py, check_observations) -/

/-- The disk state that check_observations works over: the summaries directory
of json files (read as text, never parsed) and its processed subdirectory.
Results of a non-recursive glob all lie directly in the summaries directory,
so the parent filter of the source is vacuous here. -/
structure ObsState where
  summariesDir : Dir String
  processedDir : Dir String
deriving DecidableEq

/-- check_observations of app/background.py. The oracle call (cf.run over the
collected summary texts) may raise; it is passed as a function from the texts
to an Except. The function reads every unprocessed summary file, runs the
oracle on the texts, and only after the oracle returns moves each file into
the processed subdirectory (Path.rename keeps the file name; an existing
destination of the same name is replaced). An oracle exception propagates out
of the flow before any file has been moved. The pair returned is the disk
state after the call together with the outcome. -/
def check_observations (st : ObsState)
    (oracle : List String → Except String String) :
    ObsState × Except String (Option String) :=
  let unprocessed_summaries := st.summariesDir
  if unprocessed_summaries.isEmpty then (st, .ok none)
  else
    let summaries := unprocessed_summaries.map Prod.snd
    match oracle summaries with
    | .error e => (st, .error e)
    | .ok maybe_interesting_stuff =>
      let movedProcessed :=
        unprocessed_summaries.foldl (fun d p => setFile d p.1 p.2) st.processedDir
      (⟨[], movedProcessed⟩, .ok (some maybe_interesting_stuff))

/-- The archival move performed per file by check_observations:
file_path.rename(new_path) into the processed subdirectory. Renaming a source
name that does not exist raises FileNotFoundError; renaming onto an existing
destination name silently replaces it (POSIX rename). -/
def archiveSummary (st : ObsState) (name : FileName) :
    Except String ObsState :=
  match lookupFile st.summariesDir name with
  | none => .error "FileNotFoundError"
  | some content =>
    .ok ⟨eraseFile st.summariesDir name, setFile st.processedDir name content⟩

/-! ## Periodic task loop (assistant/background/task_manager.py) -/

/-- One execution of a job's work item: either a normal return or a raised
exception with its message. -/
abbrev WorkOutcome : Type := Except String Unit

/-- BackgroundTask.run of assistant/background/task_manager.py, driven over a
finite prefix of ticks. Each loop iteration runs the work item inside a try
that catches every Exception and logs it, then sleeps and continues — an
exception never breaks the loop. The return value counts the iterations
completed on that prefix and collects the logged error messages in order. -/
def BackgroundTask.runLoop : List WorkOutcome → Nat × List String
  | [] => (0, [])
  | outcome :: rest =>
    let logged := match outcome with
      | .ok _ => []
      | .error e => [e]
    let (n, logs) := BackgroundTask.runLoop rest
    (n + 1, logged ++ logs)

/-- BackgroundTaskManager.start_all: one asyncio task per registered job, each
running BackgroundTask.run over its own work outcomes; no job loop reads or
writes another loop's state. Each trace is the tick prefix of one job. -/
def BackgroundTaskManager.runAll (traces : List (List WorkOutcome)) :
    List (Nat × List String) :=
  traces.map BackgroundTask.runLoop

/-! ## Historical pin stage -/

/-- Modelled from the spec: the compaction pipeline's Pin-stage persistence
decision is not present under src/ — only the historical_pin_threshold setting
(app/settings.py) and DiskStorage.store_compact are. Per the spec, if the pin
returned by the oracle is not empty and its importance score exceeds
historical_pin_threshold it is persisted as a new pin via store_compact, and
otherwise it is discarded with no compact-tier write. -/
def pinStage (fs : DiskStorage) (pin : CompactedSummary)
    (historical_pin_threshold : ℚ) (now : DateTime) : DiskStorage :=
  if pin.empty = false ∧ historical_pin_threshold < pin.importance_score then
    fs.store_compact pin now
  else
    fs

/-! ## Directory lemmas -/

theorem lookupFile_setFile_self {α : Type} (d : Dir α) (n : FileName) (c : α) :
    lookupFile (setFile d n c) n = some c := by
  induction d with
  | nil => simp [setFile, lookupFile]
  | cons p rest ih =>
    obtain ⟨k, v⟩ := p
    by_cases h : k = n
    · simp [setFile, h, lookupFile]
    · simp [setFile, h, lookupFile, ih]

theorem lookupFile_setFile_ne {α : Type} (d : Dir α) {n m : FileName} (c : α)
    (h : n ≠ m) : lookupFile (setFile d n c) m = lookupFile d m := by
  induction d with
  | nil => simp [setFile, lookupFile, h]
  | cons p rest ih =>
    obtain ⟨k, v⟩ := p
    by_cases hk : k = n
    · subst hk
      simp [setFile, lookupFile, h]
    · simp [setFile, hk, lookupFile, ih]

theorem lookupFile_eraseFile_self {α : Type} (d : Dir α) (n : FileName) :
    lookupFile (eraseFile d n) n = none := by
  induction d with
  | nil => simp [eraseFile, lookupFile]
  | cons p rest ih =>
    obtain ⟨k, v⟩ := p
    by_cases hk : k = n
    · simpa [eraseFile, hk] using ih
    · simpa [eraseFile, List.filter_cons, hk, lookupFile] using ih

theorem mem_setFile {α : Type} {d : Dir α} {n : FileName} {c : α}
    {p : FileName × α} (h : p ∈ setFile d n c) : p = (n, c) ∨ p ∈ d := by
  induction d with
  | nil => simpa [setFile] using h
  | cons q rest ih =>
    obtain ⟨k, v⟩ := q
    by_cases hk : k = n
    · simp only [setFile, hk, if_pos rfl] at h
      rcases List.mem_cons.mp h with h1 | h1
      · exact Or.inl h1
      · exact Or.inr (List.mem_cons_of_mem _ h1)
    · simp only [setFile, if_neg hk] at h
      rcases List.mem_cons.mp h with h1 | h1
      · exact Or.inr (h1 ▸ List.mem_cons_self _ _)
      · rcases ih h1 with h2 | h2
        · exact Or.inl h2
        · exact Or.inr (List.mem_cons_of_mem _ h2)

theorem self_mem_setFile {α : Type} (d : Dir α) (n : FileName) (c : α) :
    (n, c) ∈ setFile d n c := by
  induction d with
  | nil => simp [setFile]
  | cons q rest ih =>
    obtain ⟨k, v⟩ := q
    by_cases hk : k = n
    · simp [setFile, hk]
    · simp only [setFile, if_neg hk]
      exact List.mem_cons_of_mem _ ih

theorem mem_map_fst_filter_setFile {α : Type} (g : FileName → Bool)
    (d : Dir α) (n : FileName) (c : α) {m : FileName}
    (h : m ∈ (d.filter (fun p => g p.1)).map Prod.fst) :
    m ∈ ((setFile d n c).filter (fun p => g p.1)).map Prod.fst := by
  induction d with
  | nil => simp at h
  | cons q rest ih =>
    obtain ⟨k, v⟩ := q
    by_cases hk : k = n
    · subst hk
      simp only [setFile, if_pos rfl]
      by_cases hg : g k = true
      · simpa [List.filter_cons, hg] using by simpa [List.filter_cons, hg] using h
      · simpa [List.filter_cons, hg] using by simpa [List.filter_cons, hg] using h
    · simp only [setFile, if_neg hk]
      by_cases hg : g k = true
      · simp only [List.filter_cons, hg, if_pos rfl, List.map_cons] at h ⊢
        rcases List.mem_cons.mp h with h1 | h1
        · exact List.mem_cons.mpr (Or.inl h1)
        · exact List.mem_cons.mpr (Or.inr (ih h1))
      · simp only [List.filter_cons, hg] at h ⊢
        simp only [Bool.false_eq_true, if_neg] at h ⊢
        exact ih h

theorem lookupFile_none_iff_not_mem_fst {α : Type} (d : Dir α) (n : FileName) :
    lookupFile d n = none ↔ n ∉ d.map Prod.fst := by
  induction d with
  | nil => simp [lookupFile]
  | cons q rest ih =>
    obtain ⟨k, v⟩ := q
    by_cases hk : k = n
    · simp [lookupFile, hk]
    · simp [lookupFile, hk, ih, Ne.symm hk]

theorem map_fst_setFile {α : Type} (d : Dir α) (n : FileName) (c : α) :
    (setFile d n c).map Prod.fst =
      if (lookupFile d n).isSome then d.map Prod.fst else d.map Prod.fst ++ [n] := by
  induction d with
  | nil => simp [setFile, lookupFile]
  | cons q rest ih =>
    obtain ⟨k, v⟩ := q
    by_cases hk : k = n
    · simp [setFile, hk, lookupFile]
    · by_cases hl : (lookupFile rest n).isSome
      · simp [setFile, hk, lookupFile, ih, hl]
      · simp [setFile, hk, lookupFile, ih, hl]

theorem getTimestampedPath_ne {pre : String} {t1 t2 : DateTime}
    (h : t1.sec ≠ t2.sec) :
    getTimestampedPath pre t1 ≠ getTimestampedPath pre t2 := by
  intro he
  simp only [getTimestampedPath, FileName.timestamped.injEq] at he
  exact h he.2

/-! ## Claim C3 -/

/-- First batch written in the C3 counterexample scenario. -/
def cxC3_d1 : ObservationSummary :=
  { timestamp := ⟨100, 0⟩, summary := "", events := [],
    source_types := ["email"], day_id := "0",
    entity_mentions := [], referenced_entities := [] }

/-- Second, different batch written in the C3 counterexample scenario, 500ms
after the first. -/
def cxC3_d2 : ObservationSummary :=
  { timestamp := ⟨100, 500000⟩, summary := "later batch", events := [],
    source_types := ["email"], day_id := "0",
    entity_mentions := [], referenced_entities := [] }

/-- C3 counterexample: two distinct store_raw writes in the same wall-clock
second derive the same key (the timestamp format has second granularity and no
disambiguating suffix is ever appended), and the second write silently
overwrites the first — afterwards the raw tier holds a single record carrying
only the second batch. -/
theorem store_raw_same_second_overwrites :
    cxC3_d1 ≠ cxC3_d2 ∧
    (⟨100, 0⟩ : DateTime) ≠ (⟨100, 500000⟩ : DateTime) ∧
    ((DiskStorage.empty.store_raw cxC3_d1 ⟨100, 0⟩).store_raw cxC3_d2
        ⟨100, 500000⟩).rawDir
      = [(FileName.timestamped "raw" 100, Stored.ok cxC3_d2)] := by
  refine ⟨by decide, by decide, ?_⟩
  rfl

/-- C3 (amended): keys are derived from the write's timestamp at second
granularity with no collision suffix; two writes in the same tier whose
timestamps fall in distinct seconds go to distinct keys and neither overwrites
the other, for each of store_raw, store_processed and store_compact. -/
theorem store_writes_distinct_seconds_distinct_keys
    (fs : DiskStorage) (b1 b2 p1 p2 : ObservationSummary)
    (c1 c2 : CompactedSummary) (t1 t2 : DateTime) (h : t1.sec ≠ t2.sec) :
    (lookupFile ((fs.store_raw b1 t1).store_raw b2 t2).rawDir
        (getTimestampedPath "raw" t1) = some (.ok b1) ∧
     lookupFile ((fs.store_raw b1 t1).store_raw b2 t2).rawDir
        (getTimestampedPath "raw" t2) = some (.ok b2)) ∧
    (lookupFile ((fs.store_processed p1 t1).store_processed p2 t2).processedDir
        (getTimestampedPath "summary" t1) = some (.ok p1) ∧
     lookupFile ((fs.store_processed p1 t1).store_processed p2 t2).processedDir
        (getTimestampedPath "summary" t2) = some (.ok p2)) ∧
    (lookupFile ((fs.store_compact c1 t1).store_compact c2 t2).compactDir
        (getTimestampedPath "compact" t1) = some (.ok c1) ∧
     lookupFile ((fs.store_compact c1 t1).store_compact c2 t2).compactDir
        (getTimestampedPath "compact" t2) = some (.ok c2)) := by
  have hne : ∀ pre : String,
      getTimestampedPath pre t2 ≠ getTimestampedPath pre t1 :=
    fun _ => getTimestampedPath_ne (Ne.symm h)
  refine ⟨⟨?_, ?_⟩, ⟨?_, ?_⟩, ⟨?_, ?_⟩⟩
  · simp only [DiskStorage.store_raw]
    rw [lookupFile_setFile_ne _ _ (hne "raw"), lookupFile_setFile_self]
  · simp only [DiskStorage.store_raw]
    rw [lookupFile_setFile_self]
  · simp only [DiskStorage.store_processed]
    rw [lookupFile_setFile_ne _ _ (hne "summary"), lookupFile_setFile_self]
  · simp only [DiskStorage.store_processed]
    rw [lookupFile_setFile_self]
  · simp only [DiskStorage.store_compact]
    rw [lookupFile_setFile_ne _ _ (hne "compact"), lookupFile_setFile_self]
  · simp only [DiskStorage.store_compact]
    rw [lookupFile_setFile_self]

/-- C3 (amended) witness: the amended statement evaluated on two writes one
second apart. -/
theorem store_writes_distinct_seconds_witness :
    ((100 : Nat) ≠ 101) ∧
    (lookupFile ((DiskStorage.empty.store_raw cxC3_d1 ⟨100, 0⟩).store_raw
        cxC3_d2 ⟨101, 0⟩).rawDir (getTimestampedPath "raw" ⟨100, 0⟩)
      = some (.ok cxC3_d1)) :=
  ⟨by decide,
   (store_writes_distinct_seconds_distinct_keys DiskStorage.empty cxC3_d1
      cxC3_d2 cxC3_d1 cxC3_d2
      { summary := "", start_time := ⟨0, 0⟩, end_time := ⟨0, 0⟩,
        key_points := [], importance_score := 0, source_types := [],
        day_id := "0", empty := true }
      { summary := "", start_time := ⟨0, 0⟩, end_time := ⟨0, 0⟩,
        key_points := [], importance_score := 0, source_types := [],
        day_id := "0", empty := true }
      ⟨100, 0⟩ ⟨101, 0⟩ (by decide)).1.1⟩

/-! ## Claim C7 -/

/-- C7: a job execution that raises is caught and logged at the loop boundary
and the same job's loop continues with its next tick — over any finite prefix
of tick outcomes, every tick executes (the count equals the prefix length) and
exactly the raised errors are logged in order; the scheduler keeps one loop
per job regardless of failures, and a job's loop result depends only on its
own outcome trace, so no other job's failures can stop or alter it. -/
theorem job_failure_isolated :
    (∀ trace : List WorkOutcome,
        (BackgroundTask.runLoop trace).1 = trace.length ∧
        (BackgroundTask.runLoop trace).2 = trace.filterMap (fun o =>
          match o with
          | .ok _ => none
          | .error e => some e)) ∧
    (∀ traces : List (List WorkOutcome),
        (BackgroundTaskManager.runAll traces).length = traces.length) ∧
    (∀ traces1 traces2 : List (List WorkOutcome), ∀ i : Nat,
        traces1[i]? = traces2[i]? →
        (BackgroundTaskManager.runAll traces1)[i]?
          = (BackgroundTaskManager.runAll traces2)[i]?) := by
  refine ⟨?_, ?_, ?_⟩
  · intro trace
    induction trace with
    | nil => simp [BackgroundTask.runLoop]
    | cons o rest ih =>
      cases o with
      | ok u => simpa [BackgroundTask.runLoop, List.filterMap_cons] using ih
      | error e => simpa [BackgroundTask.runLoop, List.filterMap_cons] using ih
  · intro traces
    simp [BackgroundTaskManager.runAll]
  · intro traces1 traces2 i h
    simp only [BackgroundTaskManager.runAll, List.getElem?_map, h]

/-- C7 witness: a two-job scheduler where the first job's trace has a failing
tick; both loops execute all their ticks, the failure is logged, and changing
nothing about the second job's view keeps its loop identical. -/
theorem job_failure_isolated_witness :
    (BackgroundTask.runLoop [Except.error "boom", Except.ok ()]).1 = 2 ∧
    (BackgroundTask.runLoop [Except.error "boom", Except.ok ()]).2 = ["boom"] ∧
    (BackgroundTaskManager.runAll
        [[Except.error "boom", Except.ok ()], [Except.ok ()]])[1]?
      = (BackgroundTaskManager.runAll
        [[Except.ok (), Except.ok ()], [Except.ok ()]])[1]? :=
  ⟨(job_failure_isolated.1 [Except.error "boom", Except.ok ()]).1,
   by
    have h := (job_failure_isolated.1 [Except.error "boom", Except.ok ()]).2
    simpa using h,
   job_failure_isolated.2.2 [[Except.error "boom", Except.ok ()], [Except.ok ()]]
     [[Except.ok (), Except.ok ()], [Except.ok ()]] 1 (by decide)⟩

/-! ## Claim C8 -/

/-- C8: a compact-tier record is persisted exactly when the pin returned by
the historical-significance evaluation has empty = false and an importance
score strictly above historical_pin_threshold; an empty pin, or one at or
below the threshold, leaves the store untouched. -/
theorem pinStage_persists_iff (fs : DiskStorage) (pin : CompactedSummary)
    (thr : ℚ) (now : DateTime) :
    (pin.empty = true → pinStage fs pin thr now = fs) ∧
    (pin.importance_score ≤ thr → pinStage fs pin thr now = fs) ∧
    (pin.empty = false → thr < pin.importance_score →
      lookupFile (pinStage fs pin thr now).compactDir
        (getTimestampedPath "compact" now) = some (.ok pin)) := by
  refine ⟨?_, ?_, ?_⟩
  · intro hempty
    simp [pinStage, hempty]
  · intro hle
    have : ¬ (pin.empty = false ∧ thr < pin.importance_score) := by
      rintro ⟨-, hlt⟩
      exact absurd hle (not_le.mpr hlt)
    simp [pinStage, this]
  · intro hempty hlt
    have hc : pin.empty = false ∧ thr < pin.importance_score := ⟨hempty, hlt⟩
    simp only [pinStage, if_pos hc, DiskStorage.store_compact]
    exact lookupFile_setFile_self _ _ _

/-- Pin used by the C8 witness: not empty, importance at the top of the unit
interval, strictly above the witness threshold. -/
def cxC8_pinGood : CompactedSummary :=
  { summary := "milestone", start_time := ⟨0, 0⟩, end_time := ⟨10, 0⟩,
    key_points := ["k"], importance_score := 1, source_types := ["email"],
    day_id := "0", empty := false }

/-- Pin used by the C8 witness: the oracle found nothing worth pinning. -/
def cxC8_pinEmpty : CompactedSummary :=
  { summary := "", start_time := ⟨0, 0⟩, end_time := ⟨10, 0⟩,
    key_points := [], importance_score := 0, source_types := [],
    day_id := "0", empty := true }

/-- C8 witness: the pin-stage decision evaluated on an empty pin (no
compact-tier write) and on a high-importance pin (persisted). -/
theorem pinStage_persists_iff_witness :
    pinStage DiskStorage.empty cxC8_pinEmpty 0 ⟨30, 0⟩ = DiskStorage.empty ∧
    lookupFile (pinStage DiskStorage.empty cxC8_pinGood 0 ⟨30, 0⟩).compactDir
      (getTimestampedPath "compact" ⟨30, 0⟩) = some (.ok cxC8_pinGood) :=
  ⟨(pinStage_persists_iff DiskStorage.empty cxC8_pinEmpty 0 ⟨30, 0⟩).1 rfl,
   (pinStage_persists_iff DiskStorage.empty cxC8_pinGood 0 ⟨30, 0⟩).2.2 rfl
     (by decide)⟩

/-! ## Claim C9 -/

/-- Entity used by the C9 counterexample: well-formed in every field except
that it carries eleven recent mentions. -/
def cxC9_entity : Entity :=
  { id := "user-alice", type := "user", source := "slack", name := "alice",
    description := "a person", first_seen := ⟨0, 0⟩, last_seen := ⟨10, 0⟩,
    last_updated := ⟨10, 0⟩, importance := 1,
    recent_mentions := ["m1", "m2", "m3", "m4", "m5", "m6", "m7", "m8", "m9",
      "m10", "m11"] }

/-- C9 counterexample: adding an eleventh mention does not evict the oldest —
the capacity of recent_mentions is enforced as a pydantic max_length
validation, so an entity holding eleven mentions is rejected with a
validation error (the operation fails on overflow rather than behaving as a
bounded queue). -/
theorem recent_mentions_overflow_rejected :
    cxC9_entity.recent_mentions.length = 11 ∧
    Entity.validate cxC9_entity
      = .error "recent_mentions: list should have at most 10 items" := by
  constructor
  · decide
  · decide

/-- C9 (amended): every entity accepted by validation carries at most ten
recent mentions, and validation returns the entity unchanged — the capacity
bound is a validation constraint that rejects overflow; no eviction of the
oldest mention is performed anywhere. -/
theorem validated_entity_mentions_bounded (e e2 : Entity)
    (h : Entity.validate e = .ok e2) :
    e2 = e ∧ e2.recent_mentions.length ≤ 10 := by
  simp only [Entity.validate] at h
  split_ifs at h with h1 h2 h3 h4 h5
  have he : e = e2 := by injection h
  subst he
  exact ⟨rfl, le_of_not_lt h5⟩

/-- Entity used by the C9 witness: a valid entity at the capacity bound. -/
def cxC9_full : Entity :=
  { id := "user-bob", type := "user", source := "slack", name := "bob",
    description := "a person", first_seen := ⟨0, 0⟩, last_seen := ⟨10, 0⟩,
    last_updated := ⟨10, 0⟩, importance := 1,
    recent_mentions := ["m1", "m2", "m3", "m4", "m5", "m6", "m7", "m8", "m9",
      "m10"] }

/-- C9 (amended) witness: the bound evaluated on a valid entity holding
exactly ten mentions. -/
theorem validated_entity_mentions_bounded_witness :
    Entity.validate cxC9_full = .ok cxC9_full ∧
    cxC9_full = cxC9_full ∧ cxC9_full.recent_mentions.length ≤ 10 :=
  ⟨by decide, validated_entity_mentions_bounded cxC9_full cxC9_full (by decide)⟩

/-! ## Claim C10 -/

/-- C10: the observation-review pass is atomic with respect to oracle failure.
If the oracle evaluation inside check_observations raises, the invocation
returns that error with the disk state unchanged — no summary file has been
moved to the processed directory — and a next invocation starts from exactly
the state the failed one saw, so the same files are all retried in full. -/
theorem check_observations_atomic_on_oracle_failure
    (st : ObsState) (oracle : List String → Except String String) (e : String)
    (hne : st.summariesDir ≠ [])
    (herr : oracle (st.summariesDir.map Prod.snd) = .error e) :
    check_observations st oracle = (st, .error e) ∧
    ∀ g : List String → Except String String,
      check_observations (check_observations st oracle).1 g
        = check_observations st g := by
  have hisEmpty : st.summariesDir.isEmpty = false := by
    simpa [List.isEmpty_iff] using hne
  have hmain : check_observations st oracle = (st, .error e) := by
    simp [check_observations, hisEmpty, herr]
  exact ⟨hmain, fun g => by rw [hmain]⟩

/-- Disk state used by the C10 witness: one unprocessed summary file, an empty
processed subdirectory. -/
def cxC10_st : ObsState :=
  ⟨[(FileName.timestamped "summary" 10, "summary text")], []⟩

/-- Oracle used by the C10 witness: the evaluation raises. -/
def cxC10_oracle : List String → Except String String :=
  fun _ => .error "oracle exploded"

/-- C10 witness: a failed review pass evaluated on one concrete unprocessed
summary leaves the disk state untouched. -/
theorem check_observations_atomic_witness :
    cxC10_st.summariesDir ≠ [] ∧
    check_observations cxC10_st cxC10_oracle = (cxC10_st, .error "oracle exploded") :=
  ⟨by decide,
   (check_observations_atomic_on_oracle_failure cxC10_st cxC10_oracle
      "oracle exploded" (by decide) rfl).1⟩

/-! ## Claim C5 -/

/-- C5: the entity store round-trips. Storing an entity and reading its id
returns an equal value; deleting a stored entity succeeds and a following read
returns absent; deleting a nonexistent id returns false with the store
untouched rather than raising; and two stores under the same id leave exactly
one record in the entities directory, holding the later value. -/
theorem entity_store_roundtrip
    (fs : DiskStorage) (e e1 e2 : Entity) (entity_id : String)
    (hid : e1.id = e2.id)
    (hnone : lookupFile fs.entitiesDir (.entityFile entity_id) = none)
    (hnodup : (fs.entitiesDir.map Prod.fst).Nodup) :
    ((fs.store_entity e).get_entity e.id = some e) ∧
    (((fs.store_entity e).delete_entity e.id).2 = true ∧
     ((fs.store_entity e).delete_entity e.id).1.get_entity e.id = none) ∧
    (fs.delete_entity entity_id = (fs, false)) ∧
    (((fs.store_entity e1).store_entity e2).get_entity e2.id = some e2 ∧
     (((fs.store_entity e1).store_entity e2).entitiesDir.map Prod.fst).count
        (.entityFile e2.id) = 1) := by
  have hk : FileName.entityFile e1.id = FileName.entityFile e2.id := by rw [hid]
  refine ⟨?_, ⟨?_, ?_⟩, ?_, ?_, ?_⟩
  · simp [DiskStorage.get_entity, DiskStorage.store_entity,
      lookupFile_setFile_self, Stored.parse]
  · simp [DiskStorage.delete_entity, DiskStorage.store_entity,
      lookupFile_setFile_self]
  · simp [DiskStorage.delete_entity, DiskStorage.store_entity,
      lookupFile_setFile_self, DiskStorage.get_entity, lookupFile_eraseFile_self]
  · simp [DiskStorage.delete_entity, hnone]
  · simp [DiskStorage.get_entity, DiskStorage.store_entity,
      lookupFile_setFile_self, Stored.parse]
  · have hnames2 :
        (((fs.store_entity e1).store_entity e2).entitiesDir.map Prod.fst)
          = (setFile fs.entitiesDir (.entityFile e1.id) (.ok e1)).map Prod.fst := by
      simp only [DiskStorage.store_entity]
      rw [map_fst_setFile]
      have hsome :
          (lookupFile (setFile fs.entitiesDir (.entityFile e1.id) (.ok e1))
            (.entityFile e2.id)).isSome := by
        rw [← hk, lookupFile_setFile_self]
        rfl
      rw [if_pos hsome]
    rw [hnames2, map_fst_setFile]
    by_cases hcase : (lookupFile fs.entitiesDir (.entityFile e1.id)).isSome
    · rw [if_pos hcase]
      have hmem : (FileName.entityFile e1.id) ∈ fs.entitiesDir.map Prod.fst := by
        by_contra hnot
        rw [← lookupFile_none_iff_not_mem_fst] at hnot
        rw [hnot] at hcase
        simp at hcase
      rw [← hk]
      exact List.count_eq_one_of_mem hnodup hmem
    · rw [if_neg hcase]
      have hnone2 : lookupFile fs.entitiesDir (.entityFile e1.id) = none :=
        Option.not_isSome_iff_eq_none.mp hcase
      have hnotmem : (FileName.entityFile e1.id) ∉ fs.entitiesDir.map Prod.fst :=
        (lookupFile_none_iff_not_mem_fst _ _).mp hnone2
      rw [← hk, List.count_append]
      simp [List.count_eq_zero.mpr hnotmem]

/-- First entity stored by the C5 witness. -/
def cxC5_eA : Entity :=
  { id := "user-carol", type := "user", source := "slack", name := "carol",
    description := "first understanding", first_seen := ⟨0, 0⟩,
    last_seen := ⟨5, 0⟩, last_updated := ⟨5, 0⟩, importance := 0,
    recent_mentions := [] }

/-- Second entity stored by the C5 witness, under the same id. -/
def cxC5_eB : Entity :=
  { id := "user-carol", type := "user", source := "slack", name := "carol",
    description := "updated understanding", first_seen := ⟨0, 0⟩,
    last_seen := ⟨9, 0⟩, last_updated := ⟨9, 0⟩, importance := 1,
    recent_mentions := ["s1"] }

/-- C5 witness: the round-trip and last-write-wins conclusions evaluated on
two concrete entities sharing one id, over an empty entities directory. -/
theorem entity_store_roundtrip_witness :
    cxC5_eA.id = cxC5_eB.id ∧
    (DiskStorage.empty.store_entity cxC5_eA).get_entity cxC5_eA.id = some cxC5_eA ∧
    ((DiskStorage.empty.store_entity cxC5_eA).store_entity cxC5_eB).get_entity
      cxC5_eB.id = some cxC5_eB :=
  ⟨by decide,
   (entity_store_roundtrip DiskStorage.empty cxC5_eA cxC5_eA cxC5_eB "ghost"
      (by decide) rfl (by decide)).1,
   (entity_store_roundtrip DiskStorage.empty cxC5_eA cxC5_eA cxC5_eB "ghost"
      (by decide) rfl (by decide)).2.2.2.1⟩

/-! ## Claim C6 -/

/-- C6: enumeration-based loading tolerates a corrupt record. Inserting one
corrupt file anywhere among the entity records leaves get_entities returning
exactly what it returns without it; every well-formed entity record is
returned; and the processed-summary and compact-summary loads of
load_summaries likewise return the same result with a corrupt record inserted
as without it. -/
theorem corrupt_record_skipped
    (r p : Dir (Stored ObservationSummary)) (c : Dir (Stored CompactedSummary))
    (ents1 ents2 : Dir (Stored Entity)) (n : FileName) (t : String)
    (fs : DiskStorage) (m : FileName) (e : Entity)
    (hmem : (m, Stored.ok e) ∈ fs.entitiesDir)
    (p1 p2 : Dir (Stored ObservationSummary))
    (c1 c2 : Dir (Stored CompactedSummary))
    (np nc : FileName) (tp tc : String) (cutoff : DateTime) :
    (DiskStorage.get_entities ⟨r, p, c, ents1 ++ (n, .corrupt t) :: ents2⟩
       = DiskStorage.get_entities ⟨r, p, c, ents1 ++ ents2⟩) ∧
    (e ∈ fs.get_entities) ∧
    ((load_summaries ⟨r, p1 ++ (np, .corrupt tp) :: p2, c, ents1⟩ cutoff).1
       = (load_summaries ⟨r, p1 ++ p2, c, ents1⟩ cutoff).1) ∧
    ((load_summaries ⟨r, p, c1 ++ (nc, .corrupt tc) :: c2, ents1⟩ cutoff).2
       = (load_summaries ⟨r, p, c1 ++ c2, ents1⟩ cutoff).2) := by
  refine ⟨?_, ?_, ?_, ?_⟩
  · simp [DiskStorage.get_entities, List.filterMap_append, Stored.parse]
  · exact List.mem_filterMap.mpr ⟨(m, .ok e), hmem, rfl⟩
  · by_cases hg : globMatch "summary" np = true
    · simp [load_summaries, List.filter_append, List.filter_cons, hg,
        List.filterMap_append, Stored.parse]
    · simp [load_summaries, List.filter_append, List.filter_cons, hg,
        List.filterMap_append, Stored.parse]
  · by_cases hg : globMatch "compact" nc = true
    · simp [load_summaries, List.filter_append, List.filter_cons, hg,
        List.filterMap_append, Stored.parse]
    · simp [load_summaries, List.filter_append, List.filter_cons, hg,
        List.filterMap_append, Stored.parse]

/-- Well-formed entity record used by the C6 witness. -/
def cxC6_entity : Entity :=
  { id := "repo-main", type := "repository", source := "github", name := "main",
    description := "the repo", first_seen := ⟨0, 0⟩, last_seen := ⟨3, 0⟩,
    last_updated := ⟨3, 0⟩, importance := 1, recent_mentions := [] }

/-- Entities directory used by the C6 witness: one corrupt record between two
well-formed copies of distinct entity files. -/
def cxC6_dir : Dir (Stored Entity) :=
  [(FileName.entityFile "repo-main", .ok cxC6_entity)]

/-- C6 witness: a corrupt record inserted next to one well-formed entity
record is skipped, and the well-formed entity is still enumerated. -/
theorem corrupt_record_skipped_witness :
    (FileName.entityFile "repo-main", Stored.ok cxC6_entity) ∈ cxC6_dir ∧
    DiskStorage.get_entities
        ⟨[], [], [], cxC6_dir ++ (FileName.entityFile "junk", .corrupt "xx") :: []⟩
      = DiskStorage.get_entities ⟨[], [], [], cxC6_dir ++ []⟩ ∧
    cxC6_entity ∈ DiskStorage.get_entities ⟨[], [], [], cxC6_dir⟩ :=
  ⟨by decide,
   (corrupt_record_skipped [] [] [] cxC6_dir [] (FileName.entityFile "junk") "xx"
      ⟨[], [], [], cxC6_dir⟩ (FileName.entityFile "repo-main") cxC6_entity
      (by decide) [] [] [] [] (FileName.entityFile "x") (FileName.entityFile "y")
      "tp" "tc" ⟨0, 0⟩).1,
   (corrupt_record_skipped [] [] [] cxC6_dir [] (FileName.entityFile "junk") "xx"
      ⟨[], [], [], cxC6_dir⟩ (FileName.entityFile "repo-main") cxC6_entity
      (by decide) [] [] [] [] (FileName.entityFile "x") (FileName.entityFile "y")
      "tp" "tc" ⟨0, 0⟩).2.1⟩

theorem mem_map_fst_filter_of_mem {α : Type} (g : FileName → Bool)
    {d : Dir α} {p : FileName × α} (hp : p ∈ d) (hg : g p.1 = true) :
    p.1 ∈ (d.filter (fun q => g q.1)).map Prod.fst :=
  List.mem_map_of_mem Prod.fst (List.mem_filter.mpr ⟨hp, hg⟩)

theorem eventHash?_slack_toDict (e : SlackEvent) :
    eventHash? e.toDict = if e.hash = "" then none else some e.hash := by
  simp [eventHash?, SlackEvent.toDict, dictGet]

/-! ## Claim C1 -/

/-- Processed-tier record for the C1 counterexample: a batch stored by an
earlier invocation whose single event carries content hash h1. -/
def cxC1_prior : ObservationSummary :=
  { timestamp := ⟨50, 0⟩, summary := "old narrative",
    events := [[("type", "email"), ("hash", "h1"), ("subject", "hello"),
      ("sender", "bob"), ("snippet", "hi")]],
    source_types := ["email"], day_id := "0",
    entity_mentions := [], referenced_entities := [] }

/-- Store state of the C1 counterexample: the prior batch sits in the
processed tier, so h1 is in the recomputed dedup set. -/
def cxC1_fs : DiskStorage :=
  { rawDir := [],
    processedDir := [(FileName.timestamped "summary" 50, .ok cxC1_prior)],
    compactDir := [], entitiesDir := [] }

/-- Gmail event of the C1 counterexample: its upstream message id — the
content hash under the convention of the hash-based adapters — is h1, already
present in the store. -/
def cxC1_event : EmailEvent :=
  { id := "h1", subject := "hello", sender := "bob", snippet := "hi",
    thread_id := "t1", labels := [] }

/-- The raw batch that the email processor stores in the C1 counterexample:
it contains the already-seen event. -/
def cxC1_raw : ObservationSummary :=
  { timestamp := ⟨200, 0⟩, summary := "",
    events := [cxC1_event.toDict ⟨200, 0⟩],
    source_types := ["email"], day_id := dayId ⟨200, 0⟩,
    entity_mentions := [], referenced_entities := [] }

/-- C1 counterexample: the dedup-before-store contract does not hold for the
email adapter. With the event's content hash h1 already present in the
processed tier (it is in the recomputed dedup set), a later invocation of
process_gmail_observations still stores a new raw batch that includes that
event — the email processor never consults the dedup set. -/
theorem email_processor_reincludes_seen_hash :
    cxC1_fs.processedHashes.contains "h1" = true ∧
    cxC1_event.id = "h1" ∧
    (process_gmail_observations cxC1_fs [cxC1_event] "sum" ⟨200, 0⟩
        ⟨201, 0⟩).fs.rawDir
      = [(FileName.timestamped "raw" 200, .ok cxC1_raw)] ∧
    cxC1_raw.events = [cxC1_event.toDict ⟨200, 0⟩] := by
  refine ⟨by decide, by decide, by decide, by decide⟩

/-- C1 (amended): the dedup contract holds for the chat (Slack) adapter. For
every record newly stored in the raw or processed tier by
process_slack_observations, every event in it carrying a hash has a hash that
was not in the dedup set recomputed from both tiers at the start of the
invocation — previously seen events are dropped, never re-included. -/
theorem slack_adapter_drops_seen_hashes
    (fs : DiskStorage) (botToken : Option String) (slackEvents : List SlackEvent)
    (oracleSummary : String) (nowRaw nowProc : DateTime)
    (p : FileName × Stored ObservationSummary)
    (hmem : p ∈ (process_slack_observations fs botToken slackEvents
          oracleSummary nowRaw nowProc).fs.rawDir ∨
        p ∈ (process_slack_observations fs botToken slackEvents
          oracleSummary nowRaw nowProc).fs.processedDir)
    (hnewRaw : p ∉ fs.rawDir) (hnewProc : p ∉ fs.processedDir)
    (s : ObservationSummary) (hs : p.2 = .ok s)
    (d : EventDict) (hd : d ∈ s.events)
    (h : String) (hh : eventHash? d = some h) :
    fs.processedHashes.contains h = false := by
  cases botToken with
  | none =>
    simp only [process_slack_observations] at hmem
    rcases hmem with hmem | hmem
    · exact absurd hmem hnewRaw
    · exact absurd hmem hnewProc
  | some tok =>
    simp only [process_slack_observations] at hmem
    by_cases h1 : slackEvents.isEmpty
    · rw [if_pos h1] at hmem
      rcases hmem with hmem | hmem
      · exact absurd hmem hnewRaw
      · exact absurd hmem hnewProc
    · rw [if_neg h1] at hmem
      by_cases h2 : (slackEvents.filter
          (fun e => !fs.processedHashes.contains e.hash)).isEmpty
      · rw [if_pos h2] at hmem
        rcases hmem with hmem | hmem
        · exact absurd hmem hnewRaw
        · exact absurd hmem hnewProc
      · rw [if_neg h2] at hmem
        simp only [DiskStorage.store_raw, DiskStorage.store_processed] at hmem
        have hsev : s.events = (slackEvents.filter
            (fun e => !fs.processedHashes.contains e.hash)).map
              SlackEvent.toDict := by
          rcases hmem with hmem | hmem
          · rcases mem_setFile hmem with heq | hin
            · have h2eq : p.2 = Stored.ok
                  { timestamp := nowRaw, summary := "",
                    events := (slackEvents.filter
                      (fun e => !fs.processedHashes.contains e.hash)).map
                        SlackEvent.toDict,
                    source_types := ["slack"], day_id := dayId nowRaw,
                    entity_mentions := [], referenced_entities := [] } := by
                rw [heq]
              rw [hs] at h2eq
              have := (Stored.ok.injEq _ _).mp h2eq
              rw [this]
            · exact absurd hin hnewRaw
          · rcases mem_setFile hmem with heq | hin
            · have h2eq : p.2 = Stored.ok
                  { timestamp := nowProc, summary := oracleSummary,
                    events := (slackEvents.filter
                      (fun e => !fs.processedHashes.contains e.hash)).map
                        SlackEvent.toDict,
                    source_types := ["slack"], day_id := dayId nowProc,
                    entity_mentions := [], referenced_entities := [] } := by
                rw [heq]
              rw [hs] at h2eq
              have := (Stored.ok.injEq _ _).mp h2eq
              rw [this]
            · exact absurd hin hnewProc
        rw [hsev] at hd
        obtain ⟨ev, hev, hevd⟩ := List.mem_map.mp hd
        obtain ⟨hevIn, hevKeep⟩ := List.mem_filter.mp hev
        have hfresh : fs.processedHashes.contains ev.hash = false := by
          simpa using hevKeep
        rw [← hevd, eventHash?_slack_toDict] at hh
        by_cases hblank : ev.hash = ""
        · rw [if_pos hblank] at hh
          exact absurd hh (by simp)
        · rw [if_neg hblank] at hh
          have : ev.hash = h := by injection hh
          rw [← this]
          exact hfresh

/-- Prior processed record used by the C1 amended witness: its single event
carries hash a. -/
def cxC1W_prior : ObservationSummary :=
  { timestamp := ⟨50, 0⟩, summary := "old",
    events := [[("hash", "a")]], source_types := ["slack"], day_id := "0",
    entity_mentions := [], referenced_entities := [] }

/-- Store state of the C1 amended witness. -/
def cxC1W_fs : DiskStorage :=
  { rawDir := [],
    processedDir := [(FileName.timestamped "summary" 50, .ok cxC1W_prior)],
    compactDir := [], entitiesDir := [] }

/-- A Slack event whose hash a was already seen. -/
def cxC1W_evA : SlackEvent :=
  ⟨"a", "slack", ⟨90, 0⟩, "general", "alice", "seen before", "", "pl1"⟩

/-- A Slack event whose hash b is fresh. -/
def cxC1W_evB : SlackEvent :=
  ⟨"b", "slack", ⟨95, 0⟩, "general", "dana", "new message", "", "pl2"⟩

/-- The raw batch stored by the C1 amended witness run: only the fresh event
survives the dedup filter. -/
def cxC1W_raw : ObservationSummary :=
  { timestamp := ⟨200, 0⟩, summary := "",
    events := [cxC1W_evB.toDict], source_types := ["slack"],
    day_id := dayId ⟨200, 0⟩, entity_mentions := [], referenced_entities := [] }

/-- C1 (amended) witness: the Slack dedup conclusion evaluated on a concrete
run where one observed event was already seen and one is fresh. -/
theorem slack_adapter_drops_seen_hashes_witness :
    ((FileName.timestamped "raw" 200, Stored.ok cxC1W_raw)
        ∈ (process_slack_observations cxC1W_fs (some "tok")
            [cxC1W_evA, cxC1W_evB] "sum" ⟨200, 0⟩ ⟨201, 0⟩).fs.rawDir ∨
     (FileName.timestamped "raw" 200, Stored.ok cxC1W_raw)
        ∈ (process_slack_observations cxC1W_fs (some "tok")
            [cxC1W_evA, cxC1W_evB] "sum" ⟨200, 0⟩ ⟨201, 0⟩).fs.processedDir) ∧
    eventHash? cxC1W_evB.toDict = some "b" ∧
    cxC1W_fs.processedHashes.contains "b" = false :=
  ⟨Or.inl (by decide), by decide,
   slack_adapter_drops_seen_hashes cxC1W_fs (some "tok") [cxC1W_evA, cxC1W_evB]
     "sum" ⟨200, 0⟩ ⟨201, 0⟩
     (FileName.timestamped "raw" 200, Stored.ok cxC1W_raw)
     (Or.inl (by decide)) (by decide) (by decide)
     cxC1W_raw rfl cxC1W_evB.toDict (by decide) "b" (by decide)⟩

/-! ## Claim C2 -/

/-- Slack event promoted in the C2 counterexample run. -/
def cxC2_event : SlackEvent :=
  ⟨"h1", "slack", ⟨100, 0⟩, "general", "alice", "hello there", "", "link"⟩

/-- C2 counterexample: a successfully promoted batch (the processor stored its
processed summary and returned it) leaves its raw record enumerated by
get_unprocessed — raw records are never archived, so the promoted record has
not left the unprocessed enumeration. -/
theorem promoted_raw_still_unprocessed :
    ((process_slack_observations DiskStorage.empty (some "tok") [cxC2_event]
        "sum" ⟨200, 0⟩ ⟨201, 0⟩).result).isSome = true ∧
    (process_slack_observations DiskStorage.empty (some "tok") [cxC2_event]
        "sum" ⟨200, 0⟩ ⟨201, 0⟩).fs.get_processed
      = [FileName.timestamped "summary" 201] ∧
    (process_slack_observations DiskStorage.empty (some "tok") [cxC2_event]
        "sum" ⟨200, 0⟩ ⟨201, 0⟩).fs.get_unprocessed
      = [FileName.timestamped "raw" 200] := by
  refine ⟨by decide, by decide, by decide⟩

/-- C2 (amended): when a batch is successfully promoted the processed summary
appears in the get_processed enumeration, but the raw record is never
archived: the new raw batch appears in get_unprocessed, and every previously
unprocessed record is still enumerated afterwards. -/
theorem promoted_batch_not_archived
    (fs : DiskStorage) (botToken : Option String) (slackEvents : List SlackEvent)
    (oracleSummary : String) (nowRaw nowProc : DateTime) (s : ObservationSummary)
    (hres : (process_slack_observations fs botToken slackEvents oracleSummary
        nowRaw nowProc).result = some s) :
    getTimestampedPath "summary" nowProc
      ∈ (process_slack_observations fs botToken slackEvents oracleSummary
          nowRaw nowProc).fs.get_processed ∧
    getTimestampedPath "raw" nowRaw
      ∈ (process_slack_observations fs botToken slackEvents oracleSummary
          nowRaw nowProc).fs.get_unprocessed ∧
    ∀ m ∈ fs.get_unprocessed,
      m ∈ (process_slack_observations fs botToken slackEvents oracleSummary
          nowRaw nowProc).fs.get_unprocessed := by
  cases botToken with
  | none => simp [process_slack_observations] at hres
  | some tok =>
    by_cases h1 : slackEvents.isEmpty
    · rw [show process_slack_observations fs (some tok) slackEvents
          oracleSummary nowRaw nowProc = ⟨fs, none⟩ from by
            simp only [process_slack_observations]
            rw [if_pos h1]] at hres
      exact absurd hres (by simp)
    · by_cases h2 : (slackEvents.filter
          (fun e => !fs.processedHashes.contains e.hash)).isEmpty
      · rw [show process_slack_observations fs (some tok) slackEvents
            oracleSummary nowRaw nowProc = ⟨fs, none⟩ from by
              simp only [process_slack_observations]
              rw [if_neg h1, if_pos h2]] at hres
        exact absurd hres (by simp)
      · have hfs : (process_slack_observations fs (some tok) slackEvents
            oracleSummary nowRaw nowProc).fs
            = (fs.store_raw
                { timestamp := nowRaw, summary := "",
                  events := (slackEvents.filter
                    (fun e => !fs.processedHashes.contains e.hash)).map
                      SlackEvent.toDict,
                  source_types := ["slack"], day_id := dayId nowRaw,
                  entity_mentions := [], referenced_entities := [] }
                nowRaw).store_processed
                { timestamp := nowProc, summary := oracleSummary,
                  events := (slackEvents.filter
                    (fun e => !fs.processedHashes.contains e.hash)).map
                      SlackEvent.toDict,
                  source_types := ["slack"], day_id := dayId nowProc,
                  entity_mentions := [], referenced_entities := [] }
                nowProc := by
          simp only [process_slack_observations]
          rw [if_neg h1, if_neg h2]
        rw [hfs]
        refine ⟨?_, ?_, ?_⟩
        · simp only [DiskStorage.get_processed, DiskStorage.store_processed,
            DiskStorage.store_raw]
          exact mem_map_fst_filter_of_mem _ (self_mem_setFile _ _ _)
            (by simp [globMatch, getTimestampedPath])
        · simp only [DiskStorage.get_unprocessed, DiskStorage.store_processed,
            DiskStorage.store_raw]
          exact mem_map_fst_filter_of_mem _ (self_mem_setFile _ _ _)
            (by simp [globMatch, getTimestampedPath])
        · intro m hm
          simp only [DiskStorage.get_unprocessed, DiskStorage.store_processed,
            DiskStorage.store_raw] at hm ⊢
          exact mem_map_fst_filter_setFile _ _ _ _ hm

/-- The processed summary returned by the C2 witness run. -/
def cxC2_processed : ObservationSummary :=
  { timestamp := ⟨201, 0⟩, summary := "sum", events := [cxC2_event.toDict],
    source_types := ["slack"], day_id := dayId ⟨201, 0⟩,
    entity_mentions := [], referenced_entities := [] }

/-- C2 (amended) witness: the promoted batch's processed summary is
enumerated, and its raw record is still enumerated as unprocessed. -/
theorem promoted_batch_not_archived_witness :
    (process_slack_observations DiskStorage.empty (some "tok") [cxC2_event]
        "sum" ⟨200, 0⟩ ⟨201, 0⟩).result = some cxC2_processed ∧
    getTimestampedPath "summary" ⟨201, 0⟩
      ∈ (process_slack_observations DiskStorage.empty (some "tok") [cxC2_event]
          "sum" ⟨200, 0⟩ ⟨201, 0⟩).fs.get_processed ∧
    getTimestampedPath "raw" ⟨200, 0⟩
      ∈ (process_slack_observations DiskStorage.empty (some "tok") [cxC2_event]
          "sum" ⟨200, 0⟩ ⟨201, 0⟩).fs.get_unprocessed :=
  ⟨by decide,
   (promoted_batch_not_archived DiskStorage.empty (some "tok") [cxC2_event]
      "sum" ⟨200, 0⟩ ⟨201, 0⟩ cxC2_processed (by decide)).1,
   (promoted_batch_not_archived DiskStorage.empty (some "tok") [cxC2_event]
      "sum" ⟨200, 0⟩ ⟨201, 0⟩ cxC2_processed (by decide)).2.1⟩

/-! ## Claim C4 -/

/-- Disk state of the C4 counterexample: one summary file awaiting archival. -/
def cxC4_st : ObsState :=
  ⟨[(FileName.timestamped "summary" 10, "batch text")], []⟩

/-- Disk state after the first archive of the C4 counterexample. -/
def cxC4_st1 : ObsState :=
  ⟨[], [(FileName.timestamped "summary" 10, "batch text")]⟩

/-- C4 counterexample: archiving the same handle twice is not a no-op the
second time — the second archive of the handle (equivalently, archiving any
missing handle) raises FileNotFoundError, a hard failure, because the move is
a bare Path.rename of a source that no longer exists. -/
theorem archive_twice_errors :
    archiveSummary cxC4_st (FileName.timestamped "summary" 10) = .ok cxC4_st1 ∧
    archiveSummary cxC4_st1 (FileName.timestamped "summary" 10)
      = .error "FileNotFoundError" := by
  refine ⟨by decide, by decide⟩

/-- C4 (amended): archiving is not idempotent. A successful archive moves the
record out of the summaries directory into the processed directory, and a
second archive of the same handle — now a missing source — raises
FileNotFoundError instead of being a no-op. -/
theorem archive_is_not_idempotent
    (st : ObsState) (name : FileName) (st1 : ObsState)
    (h : archiveSummary st name = .ok st1) :
    lookupFile st1.summariesDir name = none ∧
    (lookupFile st1.processedDir name).isSome = true ∧
    archiveSummary st1 name = .error "FileNotFoundError" := by
  unfold archiveSummary at h
  cases hl : lookupFile st.summariesDir name with
  | none =>
    rw [hl] at h
    exact absurd h (by simp)
  | some content =>
    rw [hl] at h
    have hst1 : st1 = ⟨eraseFile st.summariesDir name,
        setFile st.processedDir name content⟩ := by
      have := (Except.ok.injEq _ _).mp h
      exact this.symm
    subst hst1
    refine ⟨lookupFile_eraseFile_self _ _, ?_, ?_⟩
    · rw [lookupFile_setFile_self]
      rfl
    · simp [archiveSummary, lookupFile_eraseFile_self]

/-- C4 (amended) witness: the non-idempotence conclusion evaluated on one
concrete summary file. -/
theorem archive_is_not_idempotent_witness :
    archiveSummary cxC4_st (FileName.timestamped "summary" 10) = .ok cxC4_st1 ∧
    (lookupFile cxC4_st1.summariesDir (FileName.timestamped "summary" 10) = none ∧
     (lookupFile cxC4_st1.processedDir (FileName.timestamped "summary" 10)).isSome
        = true ∧
     archiveSummary cxC4_st1 (FileName.timestamped "summary" 10)
        = .error "FileNotFoundError") :=
  ⟨by decide,
   archive_is_not_idempotent cxC4_st (FileName.timestamped "summary" 10)
     cxC4_st1 (by decide)⟩

end Assistant
